import Mathlib

/-!
Verification development for the notte Node SDK slice: the typed
request/response validation layer (zod schemas), the URL-building and
request primitives of BaseClient, the error taxonomy (NotteAPIError),
the SessionsClient cookie operation, and the RemoteSession lifecycle
wrapper.  TypeScript sources are shallowly embedded: pure functions
become Lean functions, the async/stateful lifecycle code becomes
explicit state passing over a world that records the network requests
issued, and thrown exceptions become Except values.
-/

namespace Notte

/-- Model of a JSON value (the result of response.json()); JS objects are
association lists whose keys are unique, looked up first-match. -/
inductive Json where
  | null : Json
  | bool (b : Bool) : Json
  | num (q : Rat) : Json
  | str (s : String) : Json
  | arr (xs : List Json) : Json
  | obj (fields : List (String × Json)) : Json
  deriving Repr

/-- Slash character predicate used by the regex replacements in buildUrl. -/
def isSlash (c : Char) : Bool := c == '/'

/-- Embeds the regex replace of a trailing run of slashes
(s.replace(/\/+$/, "")) on the character list of the string. -/
def stripTrailingL (l : List Char) : List Char :=
  (l.reverse.dropWhile isSlash).reverse

/-- Embeds the regex replace of a leading run of slashes
(s.replace(/^\/+/, "")) on the character list of the string. -/
def stripLeadingL (l : List Char) : List Char :=
  l.dropWhile isSlash

/-- Embeds the regex replace of both boundary runs of slashes
(s.replace(/^\/+|\/+$/g, "")). -/
def stripBothL (l : List Char) : List Char :=
  stripTrailingL (stripLeadingL l)

/-- JS truthiness of a string-or-null value: null and the empty string
are falsy, every other string is truthy. -/
def jsTruthyStr : Option String → Bool
  | none => false
  | some s => !(s == "")

/-- BaseClient.buildUrl on character lists: strips trailing slashes from
the server URL, appends the domain prefix (when truthy) stripped of
boundary slashes, strips leading slashes from the endpoint path and
appends it when non-empty.  The prefix test mirrors the JS truthiness
check if (this.baseEndpointPath). -/
def buildUrlL (serverUrl : List Char) (baseEndpointPath : Option (List Char))
    (endpointPath : List Char) : List Char :=
  let base0 := stripTrailingL serverUrl
  let base :=
    match baseEndpointPath with
    | some b => if b = [] then base0 else base0 ++ '/' :: stripBothL b
    | none => base0
  let ep := stripLeadingL endpointPath
  if ep = [] then base else base ++ '/' :: ep

/-- BaseClient.buildUrl on strings (the source signature). -/
def buildUrl (serverUrl : String) (baseEndpointPath : Option String)
    (endpointPath : String) : String :=
  String.mk (buildUrlL serverUrl.data (baseEndpointPath.map String.data) endpointPath.data)

/-! ### Schema layer (zod object schemas) -/

/-- One declared field of a zod object schema: its key, whether it is
required, and the validity predicate for its value when the key is
present. -/
structure Field where
  name : String
  required : Bool
  check : Json → Bool

/-- z.string(). -/
def isStringJ : Json → Bool
  | .str _ => true
  | _ => false

/-- z.boolean(). -/
def isBoolJ : Json → Bool
  | .bool _ => true
  | _ => false

/-- z.number(). -/
def isNumberJ : Json → Bool
  | .num _ => true
  | _ => false

/-- z.number().int(): a JSON number with integer value. -/
def isIntJ : Json → Bool
  | .num q => q.den == 1
  | _ => false

/-- z.number().int().positive(). -/
def isPosIntJ : Json → Bool
  | .num q => q.den == 1 && decide (0 < q)
  | _ => false

/-- z.literal(lit) over strings. -/
def isLiteralJ (lit : String) : Json → Bool := fun j =>
  match j with
  | .str s => s == lit
  | _ => false

/-- Wraps a value check to accept null as well (zod .nullable()). -/
def nullableJ (check : Json → Bool) : Json → Bool := fun j =>
  match j with
  | .null => true
  | _ => check j

/-- z.array(elem): a JSON array whose elements all satisfy elem. -/
def isArrayOfJ (check : Json → Bool) : Json → Bool := fun j =>
  match j with
  | .arr xs => xs.all check
  | _ => false

/-- z.enum([...]): a string drawn from the given literals. -/
def isEnumJ (lits : List String) : Json → Bool := fun j =>
  match j with
  | .str s => lits.contains s
  | _ => false

/-- z.record(z.unknown()): any JSON object. -/
def isRecordJ : Json → Bool
  | .obj _ => true
  | _ => false

/-- z.unknown(): accepts anything. -/
def isUnknownJ : Json → Bool := fun _ => true

/-- Declared-field discipline of an object: every required field is
present, and every present declared field has a valid value. -/
def checkFields (fields : List Field) (kvs : List (String × Json)) : Bool :=
  fields.all fun f =>
    match kvs.lookup f.name with
    | some v => f.check v
    | none => !f.required

/-- Unknown-key test for strict mode: every key of the object is the
name of a declared field. -/
def allKeysDeclared (fields : List Field) (kvs : List (String × Json)) : Bool :=
  kvs.all fun kv => fields.any fun f => f.name == kv.1

/-- Unknown-key policy of a zod object schema (.strict() rejects unknown
keys, .passthrough() keeps them). -/
inductive Mode where
  | strict
  | passthrough
  deriving DecidableEq

/-- Parse of a zod object schema under the given unknown-key policy: it
fails on a non-object, on a missing required field, on an invalid
declared-field value, and, in strict mode, on any key outside the
declared set.  The embedded schemas are transform-free, so a successful
parse returns the input object: in passthrough mode zod copies every
input key with its value unchanged, and in strict mode every input key
is declared and copied unchanged. -/
def parseObject (mode : Mode) (fields : List Field) : Json → Option Json := fun j =>
  match j with
  | .obj kvs =>
      if checkFields fields kvs &&
          (match mode with
           | .passthrough => true
           | .strict => allKeysDeclared fields kvs)
      then some (.obj kvs)
      else none
  | _ => none

/-- Validity of a value against a default-mode zod object schema
(unknown keys permitted, as for nested objects where only pass or fail
matters at the enclosing layer). -/
def checkObject (fields : List Field) : Json → Bool := fun j =>
  match j with
  | .obj kvs => checkFields fields kvs
  | _ => false

/-- NotteProxySchema: literal type tag notte, optional nullable id and
country. -/
def notteProxyFields : List Field :=
  [⟨"type", true, isLiteralJ ("notte")⟩,
   ⟨"id", false, nullableJ isStringJ⟩,
   ⟨"country", false, nullableJ isStringJ⟩]

/-- ExternalProxySchema: literal type tag external, required server,
optional nullable username, password and bypass. -/
def externalProxyFields : List Field :=
  [⟨"type", true, isLiteralJ ("external")⟩,
   ⟨"server", true, isStringJ⟩,
   ⟨"username", false, nullableJ isStringJ⟩,
   ⟨"password", false, nullableJ isStringJ⟩,
   ⟨"bypass", false, nullableJ isStringJ⟩]

/-- ProxySettingsSchema: discriminated union on the literal type tag. -/
def checkProxySettings : Json → Bool := fun j =>
  match j with
  | .obj kvs =>
      match kvs.lookup ("type") with
      | some (.str ("notte")) => checkFields notteProxyFields kvs
      | some (.str ("external")) => checkFields externalProxyFields kvs
      | _ => false
  | _ => false

/-- SessionProfileSchema: required id, optional persist flag. -/
def sessionProfileFields : List Field :=
  [⟨"id", true, isStringJ⟩,
   ⟨"persist", false, isBoolJ⟩]

/-- proxies field of the start request: union of a proxy-settings array,
a boolean, and a string. -/
def checkProxiesField : Json → Bool := fun j =>
  isArrayOfJ checkProxySettings j || isBoolJ j || isStringJ j

/-- Declared fields of SessionStartRequestSchema. -/
def sessionStartRequestFields : List Field :=
  [⟨"headless", false, isBoolJ⟩,
   ⟨"solve_captchas", false, isBoolJ⟩,
   ⟨"max_duration_minutes", false, isPosIntJ⟩,
   ⟨"idle_timeout_minutes", false, isPosIntJ⟩,
   ⟨"proxies", false, checkProxiesField⟩,
   ⟨"browser_type", false, isStringJ⟩,
   ⟨"user_agent", false, nullableJ isStringJ⟩,
   ⟨"chrome_args", false, nullableJ (isArrayOfJ isStringJ)⟩,
   ⟨"viewport_width", false, nullableJ isIntJ⟩,
   ⟨"viewport_height", false, nullableJ isIntJ⟩,
   ⟨"cdp_url", false, nullableJ isStringJ⟩,
   ⟨"use_file_storage", false, isBoolJ⟩,
   ⟨"screenshot_type", false, isStringJ⟩,
   ⟨"profile", false, nullableJ (checkObject sessionProfileFields)⟩,
   ⟨"web_bot_auth", false, isBoolJ⟩]

/-- SessionStartRequestSchema: strict object over its declared fields. -/
def SessionStartRequestSchema : Json → Option Json :=
  parseObject .strict sessionStartRequestFields

/-- Declared fields of SessionResponseSchema. -/
def sessionResponseFields : List Field :=
  [⟨"session_id", true, isStringJ⟩,
   ⟨"idle_timeout_minutes", true, isIntJ⟩,
   ⟨"max_duration_minutes", true, isIntJ⟩,
   ⟨"created_at", true, isStringJ⟩,
   ⟨"closed_at", false, nullableJ isStringJ⟩,
   ⟨"last_accessed_at", true, isStringJ⟩,
   ⟨"duration", false, isUnknownJ⟩,
   ⟨"status", true, isEnumJ ["active", "closed", "error", "timed_out"]⟩,
   ⟨"steps", false, isArrayOfJ isRecordJ⟩,
   ⟨"error", false, nullableJ isStringJ⟩,
   ⟨"credit_usage", false, nullableJ isNumberJ⟩,
   ⟨"proxies", false, isBoolJ⟩,
   ⟨"browser_type", false, isStringJ⟩,
   ⟨"use_file_storage", false, isBoolJ⟩,
   ⟨"network_request_bytes", false, isNumberJ⟩,
   ⟨"network_response_bytes", false, isNumberJ⟩,
   ⟨"user_agent", false, nullableJ isStringJ⟩,
   ⟨"viewport_width", false, nullableJ isNumberJ⟩,
   ⟨"viewport_height", false, nullableJ isNumberJ⟩,
   ⟨"headless", false, isBoolJ⟩,
   ⟨"solve_captchas", false, nullableJ isBoolJ⟩,
   ⟨"cdp_url", false, nullableJ isStringJ⟩,
   ⟨"viewer_url", false, nullableJ isStringJ⟩,
   ⟨"web_bot_auth", false, isBoolJ⟩]

/-- SessionResponseSchema: passthrough object over its declared fields. -/
def SessionResponseSchema : Json → Option Json :=
  parseObject .passthrough sessionResponseFields

/-- Declared fields of CookieSchema. -/
def cookieFields : List Field :=
  [⟨"name", true, isStringJ⟩,
   ⟨"value", true, isStringJ⟩,
   ⟨"domain", true, isStringJ⟩,
   ⟨"path", true, isStringJ⟩,
   ⟨"httpOnly", true, isBoolJ⟩,
   ⟨"expirationDate", false, nullableJ isNumberJ⟩,
   ⟨"hostOnly", false, nullableJ isBoolJ⟩,
   ⟨"sameSite", false, nullableJ (isEnumJ ["Lax", "None", "Strict"])⟩,
   ⟨"secure", false, nullableJ isBoolJ⟩,
   ⟨"session", false, nullableJ isBoolJ⟩,
   ⟨"storeId", false, nullableJ isStringJ⟩,
   ⟨"expires", false, nullableJ isNumberJ⟩,
   ⟨"partitionKey", false, nullableJ isStringJ⟩]

/-- CookieSchema: passthrough object over its declared fields. -/
def CookieSchema : Json → Option Json :=
  parseObject .passthrough cookieFields

/-- Declared fields of SetCookiesRequestSchema: a required cookies array
of cookie-shaped elements (no non-empty constraint in the source). -/
def setCookiesRequestFields : List Field :=
  [⟨"cookies", true, isArrayOfJ (fun j => (CookieSchema j).isSome)⟩]

/-- SetCookiesRequestSchema: strict object over its one declared field. -/
def SetCookiesRequestSchema : Json → Option Json :=
  parseObject .strict setCookiesRequestFields

/-- Declared fields of SetCookiesResponseSchema. -/
def setCookiesResponseFields : List Field :=
  [⟨"success", true, isBoolJ⟩,
   ⟨"message", true, isStringJ⟩]

/-- SetCookiesResponseSchema: passthrough object. -/
def SetCookiesResponseSchema : Json → Option Json :=
  parseObject .passthrough setCookiesResponseFields

/-! ### Endpoint descriptor and the setCookies operation -/

/-- HTTP verbs of NotteEndpoint. -/
inductive HttpMethod where
  | GET
  | POST
  | DELETE
  | PATCH
  deriving DecidableEq, Repr

/-- NotteEndpoint plus the optional body and query params added by the
withBody and withParams helpers. -/
structure NotteEndpoint where
  path : String
  method : HttpMethod
  responseSchema : Json → Option Json
  body : Option Json
  params : Option (List (String × Json))

/-- SessionsClient.setCookies: builds the endpoint with the literal
body wrap and hands it to the request primitive; the cookie array is
not validated against any schema at this layer. -/
def setCookiesEndpoint (sessionId : String) (cookies : List Json) : NotteEndpoint :=
  { path := sessionId ++ "/cookies"
  , method := .POST
  , responseSchema := SetCookiesResponseSchema
  , body := some (.obj [("cookies", .arr cookies)])
  , params := none }

/-! ### Error taxonomy -/

/-- NotteAPIError fields: HTTP status code (0 for the timeout and
malformed-list sentinels), raw error body, request path. -/
structure NotteAPIError where
  statusCode : Nat
  errorBody : Json
  path : String

/-- JS String() coercion of the values reachable from error bodies.
Integer numbers render exactly; the rendering of non-integer numbers is
an acknowledged approximation of JS float formatting (the claims only
exercise string-valued fields).  Arrays render as the comma join of
their elements with null rendered empty, objects as the usual object
placeholder. -/
def jsToString : Json → String
  | .null => "null"
  | .bool b => if b then ("true") else ("false")
  | .num q => if q.den = 1 then toString q.num else toString q
  | .str s => s
  | .obj _ => "[object Object]"
  | .arr xs =>
      String.intercalate (",") (xs.attach.map fun x =>
        match x with
        | ⟨.null, _⟩ => ""
        | ⟨j, _⟩ => jsToString j)

/-- Message derivation in the NotteAPIError constructor: prefer a detail
field, then a message field, then the body itself when it is a
non-empty string, else a generic message naming the status code. -/
def errMessageCore (errorBody : Json) (statusCode : Nat) : String :=
  match errorBody with
  | .obj kvs =>
      match kvs.lookup ("detail") with
      | some v => jsToString v
      | none =>
          match kvs.lookup ("message") with
          | some v => jsToString v
          | none => "API request failed with status " ++ toString statusCode
  | .str s =>
      if s.length > 0 then s
      else "API request failed with status " ++ toString statusCode
  | _ => "API request failed with status " ++ toString statusCode

/-- Error.message of a NotteAPIError: the derived core message with the
request path appended in parentheses by the super() call. -/
def NotteAPIError.message (e : NotteAPIError) : String :=
  errMessageCore e.errorBody e.statusCode ++ " (" ++ e.path ++ ")"

/-! ### BaseClient request primitives -/

/-- Opaque transport-level failure: a fetch rejection other than the
timeout abort, carried unchanged. -/
structure TransportError where
  tag : String
  deriving DecidableEq, Repr

/-- Body of an HTTP response: its raw text and, when the text parses as
JSON, the parsed value (none models a response.json() rejection). -/
structure HttpBody where
  json? : Option Json
  text : String

/-- Outcome of the fetch call raced against the timeout timer. -/
inductive FetchOutcome where
  | response (status : Nat) (body : HttpBody)
  | abortTimeout
  | transportFail (e : TransportError)

/-- Failure channel of the request primitives. -/
inductive RequestFailure where
  | api (e : NotteAPIError)
  | transport (e : TransportError)
  | bodyNotJson
  | validation

/-- Response.ok: HTTP status in the 200 to 299 range. -/
def responseOk (status : Nat) : Bool :=
  decide (200 ≤ status) && decide (status ≤ 299)

/-- BaseClient.rawRequest given the outcome of the transport operation:
the value returned or the exception thrown, paired with the pending
state of the timeout timer on exit (false means cleared; the source
clears the timer both in the catch block and in the finally block, so
it is cleared on every path). -/
def rawRequest (path : String) (outcome : FetchOutcome) :
    Except RequestFailure Json × Bool :=
  match outcome with
  | .abortTimeout =>
      (.error (.api ⟨0, .str ("Request timed out"), path⟩), false)
  | .transportFail e => (.error (.transport e), false)
  | .response status body =>
      if responseOk status then
        match body.json? with
        | some j => (.ok j, false)
        | none => (.error .bodyNotJson, false)
      else
        (.error (.api
          ⟨status,
           (match body.json? with
            | some j => j
            | none => .str body.text),
           path⟩), false)

/-- Item extraction of BaseClient.requestList: an array is the item
list; an object whose items key holds an array supplies that list; any
other shape has no item list. -/
def getListItems (raw : Json) : Option (List Json) :=
  match raw with
  | .arr xs => some xs
  | .obj kvs =>
      match kvs.lookup ("items") with
      | some (.arr xs) => some xs
      | _ => none
  | _ => none

/-- items.map(parse): validates each item in order, left to right, the
first failure throwing a response-validation error. -/
def mapParse (schema : Json → Option Json) : List Json → Except RequestFailure (List Json)
  | [] => .ok []
  | x :: xs =>
      match schema x with
      | none => .error .validation
      | some y =>
          match mapParse schema xs with
          | .ok ys => .ok (y :: ys)
          | .error e => .error e

/-- BaseClient.requestList applied to the raw JSON obtained from
rawRequest: extracts the item list or raises the malformed-list
NotteAPIError with the sentinel status 0, then validates every item in
order against the response schema. -/
def requestList (schema : Json → Option Json) (path : String) (raw : Json) :
    Except RequestFailure (List Json) :=
  match getListItems raw with
  | some xs => mapParse schema xs
  | none =>
      .error (.api ⟨0, .str ("Expected array or \x7b items: [...] \x7d response"), path⟩)

/-! ### RemoteSession lifecycle wrapper -/

/-- Client-side snapshot of a session: the SessionResponse fields the
lifecycle wrapper reads. -/
structure SessionResponseM where
  session_id : String
  status : String
  deriving DecidableEq, Repr

/-- Thrown JS error, identified by its message. -/
structure JsError where
  msg : String
  deriving DecidableEq, Repr

/-- Network requests issued to the sessions domain client so far: the
number of start requests and the session ids of the stop requests in
order of issue. -/
structure ClientCalls where
  startCalls : Nat
  stopCalls : List String
  deriving DecidableEq, Repr

/-- Prescribed server behavior: the result of the n-th start request and
of the n-th stop request, n counted from zero. -/
structure ClientBehavior where
  startResult : Nat → Except JsError SessionResponseM
  stopResult : Nat → String → Except JsError SessionResponseM

/-- SessionsClient.start: issues one start request and returns the
prescribed result. -/
def clientStart (b : ClientBehavior) (w : ClientCalls) :
    ClientCalls × Except JsError SessionResponseM :=
  ({ w with startCalls := w.startCalls + 1 }, b.startResult w.startCalls)

/-- SessionsClient.stop: issues one stop request for the given session
id and returns the prescribed result. -/
def clientStop (b : ClientBehavior) (w : ClientCalls) (sessionId : String) :
    ClientCalls × Except JsError SessionResponseM :=
  ({ w with stopCalls := w.stopCalls ++ [sessionId] },
   b.stopResult w.stopCalls.length sessionId)

/-- Instance state of the RemoteSession wrapper. -/
structure RemoteSession where
  _sessionId : Option String
  _response : Option SessionResponseM
  _stopped : Bool
  deriving DecidableEq, Repr

/-- Fresh wrapper as built by the constructor. -/
def RemoteSession.init : RemoteSession :=
  { _sessionId := none, _response := none, _stopped := false }

/-- Getter sessionId: throws until the id field is truthy (JS truthiness,
so both null and the empty string throw). -/
def RemoteSession.sessionId (s : RemoteSession) : Except JsError String :=
  if jsTruthyStr s._sessionId then .ok (s._sessionId.getD (""))
  else .error ⟨"Session has not been started. Call start() first."⟩

/-- Getter isStarted: whether the id field is non-null. -/
def RemoteSession.isStarted (s : RemoteSession) : Bool :=
  s._sessionId.isSome

/-- Getter isStopped. -/
def RemoteSession.isStopped (s : RemoteSession) : Bool :=
  s._stopped

/-- RemoteSession.start: guarded by JS truthiness of the id field; on
success records the response and its session_id; a rejected client call
leaves every field untouched, because the assignments sit after the
await. -/
def RemoteSession.start (b : ClientBehavior) (w : ClientCalls) (s : RemoteSession) :
    (ClientCalls × RemoteSession) × Except JsError SessionResponseM :=
  if jsTruthyStr s._sessionId then ((w, s), .error ⟨"Session already started"⟩)
  else
    match clientStart b w with
    | (w1, .ok r) =>
        ((w1, { s with _response := some r, _sessionId := some r.session_id }), .ok r)
    | (w1, .error e) => ((w1, s), .error e)

/-- RemoteSession.stop: returns the cached response once the stopped
flag is set (the getD default models the non-null assertion on the
cache, which is always populated when the flag is set); throws when the
id field is falsy; otherwise issues one stop request and on success
caches the response and sets the stopped flag. -/
def RemoteSession.stop (b : ClientBehavior) (w : ClientCalls) (s : RemoteSession) :
    (ClientCalls × RemoteSession) × Except JsError SessionResponseM :=
  if s._stopped then ((w, s), .ok (s._response.getD ⟨"", ""⟩))
  else if !jsTruthyStr s._sessionId then
    ((w, s), .error ⟨"Session has not been started"⟩)
  else
    match clientStop b w (s._sessionId.getD ("")) with
    | (w1, .ok r) => ((w1, { s with _response := some r, _stopped := true }), .ok r)
    | (w1, .error e) => ((w1, s), .error e)

/-- RemoteSession.fromId: a wrapper attached to an existing id without a
start call. -/
def RemoteSession.fromId (sessionId : String) : RemoteSession :=
  { _sessionId := some sessionId, _response := none, _stopped := false }

/-- RemoteSession.use: constructs and starts a wrapper, runs the work in
a try block, and stops in the finally block.  JS finally semantics:
when the cleanup stop itself rejects, its error supersedes the result
of the try block; otherwise the try result, value or error, passes
through unchanged.  The work function is an arbitrary transformer of
the call record and wrapper state that may also fail. -/
def RemoteSession.use {T : Type} (b : ClientBehavior) (w : ClientCalls)
    (fn : ClientCalls × RemoteSession → (ClientCalls × RemoteSession) × Except JsError T) :
    (ClientCalls × RemoteSession) × Except JsError T :=
  match RemoteSession.start b w RemoteSession.init with
  | ((w1, s1), .error e) => ((w1, s1), .error e)
  | ((w1, s1), .ok _) =>
      match fn (w1, s1) with
      | ((w2, s2), fnRes) =>
          match RemoteSession.stop b w2 s2 with
          | ((w3, s3), .ok _) => ((w3, s3), fnRes)
          | ((w3, s3), .error eStop) => ((w3, s3), .error eStop)

/-- Symbol.asyncDispose: stops when the id field is truthy and the
stopped flag is not yet set. -/
def RemoteSession.asyncDispose (b : ClientBehavior) (w : ClientCalls) (s : RemoteSession) :
    ClientCalls × RemoteSession :=
  if jsTruthyStr s._sessionId && !s._stopped then (RemoteSession.stop b w s).1
  else (w, s)

/-- One wrapper operation, for stating id stability across arbitrary
call sequences; pageOp stands for status, scrape, observe, execute,
setCookies and getCookies, none of which assigns any wrapper field. -/
inductive WrapperOp where
  | startOp
  | stopOp
  | pageOp
  | disposeOp

/-- State reached after one wrapper operation, results discarded. -/
def runOp (b : ClientBehavior) (op : WrapperOp) :
    ClientCalls × RemoteSession → ClientCalls × RemoteSession := fun ws =>
  match op with
  | .startOp => (RemoteSession.start b ws.1 ws.2).1
  | .stopOp => (RemoteSession.stop b ws.1 ws.2).1
  | .pageOp => ws
  | .disposeOp => RemoteSession.asyncDispose b ws.1 ws.2

/-- State after a sequence of wrapper operations. -/
def runOps (b : ClientBehavior) :
    List WrapperOp → ClientCalls × RemoteSession → ClientCalls × RemoteSession
  | [], ws => ws
  | op :: ops, ws => runOps b ops (runOp b op ws)

/-! ### Concrete fixtures used by witnesses and counterexamples -/

/-- Behavior of a server that starts and stops sessions normally. -/
def behaviorOk : ClientBehavior :=
  { startResult := fun _ => .ok ⟨"sess-1", "active"⟩
  , stopResult := fun _ _ => .ok ⟨"sess-1", "closed"⟩ }

/-- Behavior of a server whose start requests all fail. -/
def behaviorStartFails : ClientBehavior :=
  { startResult := fun _ => .error ⟨"network down"⟩
  , stopResult := fun _ _ => .ok ⟨"sess-1", "closed"⟩ }

/-- Behavior of a server whose stop requests all fail. -/
def behaviorStopFails : ClientBehavior :=
  { startResult := fun _ => .ok ⟨"sess-1", "active"⟩
  , stopResult := fun _ _ => .error ⟨"stop failed"⟩ }

/-- Behavior of a server that answers start with an empty session id. -/
def behaviorEmptyId : ClientBehavior :=
  { startResult := fun _ => .ok ⟨"", "active"⟩
  , stopResult := fun _ _ => .ok ⟨"", "closed"⟩ }

/-- A wrapper in the started, not stopped state. -/
def startedState : RemoteSession :=
  { _sessionId := some ("sess-1")
  , _response := some ⟨"sess-1", "active"⟩
  , _stopped := false }

/-! ### Lemmas about slash stripping -/

theorem dropWhile_slash_replicate (k : Nat) (r : List Char) :
    List.dropWhile isSlash (List.replicate k '/' ++ r) = List.dropWhile isSlash r := by
  induction k with
  | zero => simp
  | succ n ih => simp [List.replicate_succ, List.dropWhile_cons, isSlash, ih]

theorem stripTrailingL_append_replicate (l : List Char) (k : Nat) :
    stripTrailingL (l ++ List.replicate k '/') = stripTrailingL l := by
  simp [stripTrailingL, List.reverse_append, List.reverse_replicate, dropWhile_slash_replicate]

theorem stripLeadingL_replicate_append (l : List Char) (k : Nat) :
    stripLeadingL (List.replicate k '/' ++ l) = stripLeadingL l := by
  simp [stripLeadingL, dropWhile_slash_replicate]

theorem head?_dropWhile_false {p : Char → Bool} : ∀ (l : List Char) (c : Char),
    (List.dropWhile p l).head? = some c → p c = false := by
  intro l
  induction l with
  | nil => intro c h; simp [List.dropWhile] at h
  | cons a l ih =>
    intro c h
    rw [List.dropWhile_cons] at h
    split at h
    · exact ih c h
    · next hpa =>
      simp only [List.head?_cons, Option.some.injEq] at h
      subst h
      exact Bool.of_not_eq_true hpa

theorem stripTrailingL_getLast?_ne (l : List Char) (c : Char)
    (h : (stripTrailingL l).getLast? = some c) : isSlash c = false := by
  rw [stripTrailingL, List.getLast?_reverse] at h
  exact head?_dropWhile_false _ c h

theorem stripBothL_getLast?_ne (b : List Char) (d : Char)
    (h : (stripBothL b).getLast? = some d) : isSlash d = false :=
  stripTrailingL_getLast?_ne _ d h

theorem getLast?_seam (l1 x : List Char) (hx : x ≠ [])
    (hlast : ∀ d, x.getLast? = some d → isSlash d = false) :
    (l1 ++ '/' :: x).getLast? ≠ some '/' := by
  obtain ⟨d0, xs, rfl⟩ : ∃ d0 xs, x = d0 :: xs := by
    cases x with
    | nil => exact absurd rfl hx
    | cons a l => exact ⟨a, l, rfl⟩
  rw [List.getLast?_append, List.getLast?_cons_cons]
  cases hgl : (d0 :: xs).getLast? with
  | none => simp at hgl
  | some d =>
    have hd := hlast d hgl
    simp only [isSlash, beq_eq_false_iff_ne, ne_eq] at hd
    simp [Option.or, hd]

/-- C3 counterexample: the claim quantifies over any combination of
leading and trailing slashes on the relative path, but buildUrl strips
only leading slashes from it: trailing slashes survive into the result,
so a path ending in two slashes yields a URL with two adjacent slashes
(not exactly one slash between adjacent segments), and appending
slashes to the relative path changes the result instead of being
normalized away. -/
theorem buildUrl_trailing_slash_counterexample :
    buildUrl ("https://api.notte.cc") (some ("sessions")) ("start//")
        = "https://api.notte.cc/sessions/start//"
    ∧ buildUrl ("https://api.notte.cc") (some ("sessions")) ("start//")
        ≠ buildUrl ("https://api.notte.cc") (some ("sessions")) ("start")
    ∧ (buildUrl ("https://api.notte.cc") (some ("sessions")) ("start//")).data.reverse.take 2
        = ['/', '/'] := by
  refine ⟨by decide, by decide, by decide⟩

/-- C3 (amended): buildUrl normalizes trailing slashes on the server URL
and leading slashes on the relative path, and joins server URL, domain
prefix and relative path with exactly one slash at each seam; with an
empty (or all-slash) relative path it returns the bare domain URL with
no trailing slash.  Trailing slashes of the relative path are preserved
verbatim, hence excluded from the normalization statement.  The domain
prefix is assumed truthy and not all slashes, as the sessions prefix
is. -/
theorem buildUrl_normalization (s b p : List Char) (k m : Nat)
    (hb : b ≠ []) (hb2 : stripBothL b ≠ []) :
    (buildUrlL (s ++ List.replicate k '/') (some b) (List.replicate m '/' ++ p)
        = buildUrlL s (some b) p)
  ∧ (stripLeadingL p = [] →
      buildUrlL s (some b) p = stripTrailingL s ++ '/' :: stripBothL b
      ∧ (buildUrlL s (some b) p).getLast? ≠ some '/')
  ∧ (∀ c rest, stripLeadingL p = c :: rest →
      buildUrlL s (some b) p
        = (stripTrailingL s ++ '/' :: stripBothL b) ++ '/' :: c :: rest
      ∧ (stripTrailingL s ++ '/' :: stripBothL b).getLast? ≠ some '/'
      ∧ isSlash c = false) := by
  refine ⟨?_, ?_, ?_⟩
  · simp [buildUrlL, hb, stripTrailingL_append_replicate, stripLeadingL_replicate_append]
  · intro hp
    constructor
    · simp [buildUrlL, hb, hp]
    · simp only [buildUrlL, hb, hp, if_false, if_true, reduceIte]
      exact getLast?_seam _ _ hb2 (stripBothL_getLast?_ne b)
  · intro c rest hp
    refine ⟨?_, ?_, ?_⟩
    · simp [buildUrlL, hb, hp]
    · exact getLast?_seam _ _ hb2 (stripBothL_getLast?_ne b)
    · exact head?_dropWhile_false p c
        (by rw [show List.dropWhile isSlash p = stripLeadingL p from rfl, hp]; rfl)

/-- Witness for the amended C3 theorem at concrete inputs. -/
theorem buildUrl_normalization_witness :
    buildUrlL (("https://api.notte.cc").data ++ List.replicate 2 '/') (some ("sessions".data))
        (List.replicate 1 '/' ++ "start".data)
      = buildUrlL (("https://api.notte.cc").data) (some (("sessions").data)) (("start").data) :=
  (buildUrl_normalization (("https://api.notte.cc").data) (("sessions").data) (("start").data) 2 1
    (by decide) (by decide)).1

/-! ### Lemmas about the lifecycle wrapper -/

theorem stop_preserves_sessionId (b : ClientBehavior) (w : ClientCalls) (s : RemoteSession) :
    ((RemoteSession.stop b w s).1.2)._sessionId = s._sessionId := by
  rw [RemoteSession.stop]
  split
  · rfl
  · split
    · rfl
    · cases hres : b.stopResult w.stopCalls.length (s._sessionId.getD ("")) with
      | ok r => simp [clientStop, hres]
      | error e => simp [clientStop, hres]

theorem runOp_preserves_sessionId (b : ClientBehavior) (op : WrapperOp)
    (w : ClientCalls) (s : RemoteSession) (h : jsTruthyStr s._sessionId = true) :
    ((runOp b op (w, s)).2)._sessionId = s._sessionId := by
  cases op with
  | startOp => simp [runOp, RemoteSession.start, h]
  | stopOp => exact stop_preserves_sessionId b w s
  | pageOp => rfl
  | disposeOp =>
    rw [runOp, RemoteSession.asyncDispose]
    split
    · exact stop_preserves_sessionId b w s
    · rfl

theorem runOps_preserves_sessionId (b : ClientBehavior) (ops : List WrapperOp) :
    ∀ (w : ClientCalls) (s : RemoteSession), jsTruthyStr s._sessionId = true →
      ((runOps b ops (w, s)).2)._sessionId = s._sessionId := by
  induction ops with
  | nil => intro w s _; rfl
  | cons op ops ih =>
    intro w s h
    have hop := runOp_preserves_sessionId b op w s h
    have hih := ih (runOp b op (w, s)).1 (runOp b op (w, s)).2 (by rw [hop]; exact h)
    rw [runOps]
    calc ((runOps b ops (runOp b op (w, s))).2)._sessionId
        = ((runOp b op (w, s)).2)._sessionId := hih
      _ = s._sessionId := hop

/-! ### C1: stop is idempotent -/

/-- C1: once a started wrapper has been stopped successfully, the first
stop issued exactly one stop request to the domain client, and every
further stop call returns that cached snapshot with no further network
call and no state change, so calling stop twice returns the same
snapshot with exactly one stop request issued. -/
theorem stop_idempotent (b : ClientBehavior) (w w1 : ClientCalls)
    (s s1 : RemoteSession) (r : SessionResponseM)
    (hstarted : jsTruthyStr s._sessionId = true)
    (hnotstopped : s._stopped = false)
    (h1 : RemoteSession.stop b w s = ((w1, s1), .ok r)) :
    w1.stopCalls = w.stopCalls ++ [s._sessionId.getD ("")]
  ∧ w1.startCalls = w.startCalls
  ∧ s1._stopped = true
  ∧ s1._response = some r
  ∧ RemoteSession.stop b w1 s1 = ((w1, s1), .ok r) := by
  rw [RemoteSession.stop, hnotstopped, hstarted] at h1
  simp only [Bool.not_true, if_false, ite_false, Bool.false_eq_true] at h1
  cases hres : b.stopResult w.stopCalls.length (s._sessionId.getD ("")) with
  | ok r0 =>
    simp only [clientStop, hres] at h1
    obtain ⟨⟨hw, hs⟩, hr⟩ :
        ({ w with stopCalls := w.stopCalls ++ [s._sessionId.getD ("")] } = w1
          ∧ { s with _response := some r0, _stopped := true } = s1)
          ∧ r0 = r := by
      simpa using h1
    subst hw; subst hs; subst hr
    refine ⟨rfl, rfl, rfl, rfl, ?_⟩
    rw [RemoteSession.stop]
    simp
  | error e =>
    simp [clientStop, hres] at h1

/-- Witness for C1: a concrete started wrapper stopped twice against a
concrete behavior returns the same snapshot both times with no second
network call. -/
theorem stop_idempotent_witness :
    RemoteSession.stop behaviorOk ⟨1, ["sess-1"]⟩
        ⟨some ("sess-1"), some ⟨"sess-1", "closed"⟩, true⟩
      = ((⟨1, ["sess-1"]⟩, ⟨some ("sess-1"), some ⟨"sess-1", "closed"⟩, true⟩),
         .ok ⟨"sess-1", "closed"⟩) :=
  (stop_idempotent behaviorOk ⟨1, []⟩ ⟨1, ["sess-1"]⟩ startedState
    ⟨some ("sess-1"), some ⟨"sess-1", "closed"⟩, true⟩ ⟨"sess-1", "closed"⟩
    (by decide) (by decide) (by rfl)).2.2.2.2

/-! ### C4: session identifier stability -/

/-- C4 counterexample: the claim fails as stated in two ways.  First, a
start that succeeds with an empty session_id (which the response schema
permits) leaves the getter throwing even though start succeeded, since
the getter tests JS truthiness.  Second, a wrapper built by fromId has
never had a successful start, yet reading the identifier does not
throw. -/
theorem sessionId_counterexample :
    (RemoteSession.start behaviorEmptyId ⟨0, []⟩ RemoteSession.init).2
        = .ok ⟨"", "active"⟩
    ∧ RemoteSession.sessionId (RemoteSession.start behaviorEmptyId ⟨0, []⟩ RemoteSession.init).1.2
        = .error ⟨"Session has not been started. Call start() first."⟩
    ∧ RemoteSession.sessionId (RemoteSession.fromId ("existing-123"))
        = .ok ("existing-123") := by
  refine ⟨rfl, rfl, rfl⟩

/-- C4 (amended): for a wrapper in the unstarted state, reading the
identifier throws the caller-misuse error; after a start that succeeds
with a non-empty session_id, the getter returns exactly that string,
and it keeps returning it unchanged after any sequence of further
wrapper operations against any behavior, since no operation ever
assigns the identifier field of a truthy wrapper. -/
theorem sessionId_stable (b b2 : ClientBehavior) (w w1 w2 : ClientCalls)
    (s s1 : RemoteSession) (r : SessionResponseM)
    (h0 : s._sessionId = none)
    (h1 : RemoteSession.start b w s = ((w1, s1), .ok r))
    (hid : r.session_id ≠ "") :
    RemoteSession.sessionId s = .error ⟨"Session has not been started. Call start() first."⟩
  ∧ s1._sessionId = some r.session_id
  ∧ RemoteSession.sessionId s1 = .ok r.session_id
  ∧ ∀ ops : List WrapperOp,
      ((runOps b2 ops (w2, s1)).2)._sessionId = some r.session_id
      ∧ RemoteSession.sessionId (runOps b2 ops (w2, s1)).2 = .ok r.session_id := by
  have htruthy0 : jsTruthyStr s._sessionId = false := by rw [h0]; rfl
  rw [RemoteSession.start, htruthy0] at h1
  simp only [Bool.false_eq_true, if_false, ite_false] at h1
  cases hres : b.startResult w.startCalls with
  | ok r0 =>
    simp only [clientStart, hres] at h1
    obtain ⟨⟨hw, hs⟩, hr⟩ :
        ({ w with startCalls := w.startCalls + 1 } = w1
          ∧ { s with _response := some r0, _sessionId := some r0.session_id } = s1)
          ∧ r0 = r := by
      simpa using h1
    subst hw; subst hs; subst hr
    have htruthy1 : jsTruthyStr (some r0.session_id) = true := by
      simp [jsTruthyStr, hid]
    refine ⟨?_, rfl, ?_, ?_⟩
    · rw [RemoteSession.sessionId, htruthy0]; rfl
    · simp [RemoteSession.sessionId, htruthy1]
    · intro ops
      have hpres := runOps_preserves_sessionId b2 ops w2
        { s with _response := some r0, _sessionId := some r0.session_id } htruthy1
      refine ⟨hpres, ?_⟩
      rw [RemoteSession.sessionId, hpres]
      simp [htruthy1]
  | error e =>
    simp [clientStart, hres] at h1

/-- Witness for the amended C4 theorem at concrete inputs. -/
theorem sessionId_stable_witness :
    RemoteSession.sessionId
        (runOps behaviorOk [.pageOp, .stopOp, .startOp]
          (⟨1, []⟩, ⟨some ("sess-1"), some ⟨"sess-1", "active"⟩, false⟩)).2
      = .ok ("sess-1") :=
  ((sessionId_stable behaviorOk behaviorOk ⟨0, []⟩ ⟨1, []⟩ ⟨1, []⟩
      RemoteSession.init ⟨some ("sess-1"), some ⟨"sess-1", "active"⟩, false⟩
      ⟨"sess-1", "active"⟩ (by rfl) (by rfl) (by decide)).2.2.2
    [.pageOp, .stopOp, .startOp]).2

/-! ### C10: a failed start leaves the wrapper unstarted -/

/-- C10: when the domain client start call rejects on an unstarted
wrapper, the wrapper state is unchanged: the identifier stays unset so
reading it still throws, isStarted stays false, the cached response
stays null, and while exactly one start request was issued, a
subsequent start is permitted and, when the next prescribed start
result is a success, behaves exactly as a first start. -/
theorem start_failure_leaves_state (b : ClientBehavior) (w w1 : ClientCalls)
    (s s1 : RemoteSession) (e : JsError)
    (h0 : s._sessionId = none)
    (h0r : s._response = none)
    (h1 : RemoteSession.start b w s = ((w1, s1), .error e)) :
    s1 = s
  ∧ w1.startCalls = w.startCalls + 1
  ∧ w1.stopCalls = w.stopCalls
  ∧ RemoteSession.sessionId s1 = .error ⟨"Session has not been started. Call start() first."⟩
  ∧ s1.isStarted = false
  ∧ s1._response = none
  ∧ (∀ r2 : SessionResponseM, b.startResult w1.startCalls = .ok r2 →
      RemoteSession.start b w1 s1
        = (({ w1 with startCalls := w1.startCalls + 1 },
            { s1 with _response := some r2, _sessionId := some r2.session_id }), .ok r2)) := by
  have htruthy0 : jsTruthyStr s._sessionId = false := by rw [h0]; rfl
  rw [RemoteSession.start, htruthy0] at h1
  simp only [Bool.false_eq_true, if_false, ite_false] at h1
  cases hres : b.startResult w.startCalls with
  | ok r0 => simp [clientStart, hres] at h1
  | error e0 =>
    simp only [clientStart, hres] at h1
    obtain ⟨⟨hw, hs⟩, he⟩ :
        ({ w with startCalls := w.startCalls + 1 } = w1 ∧ s = s1) ∧ e0 = e := by
      simpa using h1
    subst hw; subst hs; subst he
    refine ⟨rfl, rfl, rfl, ?_, ?_, h0r, ?_⟩
    · rw [RemoteSession.sessionId, htruthy0]; rfl
    · rw [RemoteSession.isStarted, h0]; rfl
    · intro r2 hres2
      rw [RemoteSession.start, htruthy0]
      simp only [Bool.false_eq_true, if_false, ite_false, clientStart, hres2]

/-- Witness for C10: a concrete failed start followed by a successful
retry that behaves as a first start. -/
theorem start_failure_leaves_state_witness :
    RemoteSession.sessionId
        (RemoteSession.start behaviorStartFails ⟨0, []⟩ RemoteSession.init).1.2
      = .error ⟨"Session has not been started. Call start() first."⟩ :=
  (start_failure_leaves_state behaviorStartFails ⟨0, []⟩ ⟨1, []⟩
    RemoteSession.init RemoteSession.init ⟨"network down"⟩
    (by rfl) (by rfl) (by rfl)).2.2.2.1

/-! ### C2: the guarded-use helper -/

/-- C2 counterexample: when the work function raises and the cleanup
stop in the finally block itself rejects, the stop error supersedes the
original error of the work (JS try/finally semantics), so the caller
observes a stop-related error, contradicting the claim that the
original error is always the one observed. -/
theorem use_counterexample :
    ((RemoteSession.use behaviorStopFails ⟨0, []⟩
        (fun ws => (ws, (.error ⟨"boom"⟩ : Except JsError Unit)))).2
      = .error ⟨"stop failed"⟩)
  ∧ ((RemoteSession.use behaviorStopFails ⟨0, []⟩
        (fun ws => (ws, (.error ⟨"boom"⟩ : Except JsError Unit)))).2
      ≠ .error ⟨"boom"⟩) := by
  refine ⟨rfl, fun h => ?_⟩
  have h2 : (.error ⟨"stop failed"⟩ : Except JsError Unit) = .error ⟨"boom"⟩ := h
  injection h2 with h3
  injection h3 with h4
  exact absurd h4 (by decide)

/-- C2 (amended): when start succeeds with a truthy id and the work
function issues no stop requests and leaves the session active, the
helper issues exactly one stop request, for the started session, whether
or not the work fails; when the cleanup stop succeeds, the result of the
work, in particular its original error, passes through unchanged; when
the cleanup stop itself rejects, the stop error supersedes the work
result. -/
theorem use_cleanup {T : Type} (b : ClientBehavior) (w : ClientCalls)
    (fn : ClientCalls × RemoteSession → (ClientCalls × RemoteSession) × Except JsError T)
    (r : SessionResponseM) (w2 : ClientCalls) (s2 : RemoteSession)
    (fnRes : Except JsError T)
    (hstart : b.startResult w.startCalls = .ok r)
    (hid : r.session_id ≠ "")
    (hfn : fn ({ startCalls := w.startCalls + 1, stopCalls := w.stopCalls },
               { _sessionId := some r.session_id, _response := some r, _stopped := false })
             = ((w2, s2), fnRes))
    (hfnStops : w2.stopCalls = w.stopCalls)
    (hfnSess : s2._sessionId = some r.session_id)
    (hfnNotStopped : s2._stopped = false) :
    (RemoteSession.use b w fn).1.1.stopCalls = w.stopCalls ++ [r.session_id]
  ∧ (∀ rs : SessionResponseM,
      b.stopResult w.stopCalls.length r.session_id = .ok rs →
      (RemoteSession.use b w fn).2 = fnRes)
  ∧ (∀ es : JsError,
      b.stopResult w.stopCalls.length r.session_id = .error es →
      (RemoteSession.use b w fn).2 = .error es) := by
  have hs1 : RemoteSession.start b w RemoteSession.init
      = (({ startCalls := w.startCalls + 1, stopCalls := w.stopCalls },
          { _sessionId := some r.session_id, _response := some r, _stopped := false }),
         .ok r) := by
    rw [RemoteSession.start]
    simp [jsTruthyStr, clientStart, hstart, RemoteSession.init]
  have htr : jsTruthyStr s2._sessionId = true := by
    simp [hfnSess, jsTruthyStr, hid]
  cases hstop : b.stopResult w.stopCalls.length r.session_id with
  | ok rs =>
    have hstopEq : RemoteSession.stop b w2 s2
        = (({ w2 with stopCalls := w2.stopCalls ++ [r.session_id] },
            { s2 with _response := some rs, _stopped := true }), .ok rs) := by
      rw [RemoteSession.stop]
      simp [hfnNotStopped, clientStop, hfnSess, hfnStops, hstop, jsTruthyStr, hid]
    have huse : RemoteSession.use b w fn
        = (({ w2 with stopCalls := w2.stopCalls ++ [r.session_id] },
            { s2 with _response := some rs, _stopped := true }), fnRes) := by
      rw [RemoteSession.use, hs1]
      simp only [hfn, hstopEq]
    refine ⟨?_, ?_, ?_⟩
    · rw [huse]; simpa using congrArg (fun l => l ++ [r.session_id]) hfnStops
    · intro rs0 h0; rw [huse]
    · intro es h0; exact Except.noConfusion h0
  | error es0 =>
    have hstopEq : RemoteSession.stop b w2 s2
        = (({ w2 with stopCalls := w2.stopCalls ++ [r.session_id] }, s2), .error es0) := by
      rw [RemoteSession.stop]
      simp [hfnNotStopped, clientStop, hfnSess, hfnStops, hstop, jsTruthyStr, hid]
    have huse : RemoteSession.use b w fn
        = (({ w2 with stopCalls := w2.stopCalls ++ [r.session_id] }, s2), .error es0) := by
      rw [RemoteSession.use, hs1]
      simp only [hfn, hstopEq]
    refine ⟨?_, ?_, ?_⟩
    · rw [huse]; simpa using congrArg (fun l => l ++ [r.session_id]) hfnStops
    · intro rs0 h0; exact Except.noConfusion h0
    · intro es h0
      injection h0 with h2
      subst h2
      rw [huse]

/-- Witness for the amended C2 theorem: a failing work function against
a server whose stop succeeds; the caller observes the original error. -/
theorem use_cleanup_witness :
    (RemoteSession.use behaviorOk ⟨0, []⟩
        (fun ws => (ws, (.error ⟨"boom"⟩ : Except JsError Unit)))).2
      = .error ⟨"boom"⟩ :=
  (use_cleanup behaviorOk ⟨0, []⟩
      (fun ws => (ws, (.error ⟨"boom"⟩ : Except JsError Unit)))
      ⟨"sess-1", "active"⟩ ⟨1, []⟩
      ⟨some ("sess-1"), some ⟨"sess-1", "active"⟩, false⟩
      (.error ⟨"boom"⟩)
      (by rfl) (by decide) (by rfl) (by rfl) (by rfl) (by rfl)).2.1
    ⟨"sess-1", "closed"⟩ (by rfl)

/-! ### C5: list-response normalization -/

theorem mapParse_ok_spec (schema : Json → Option Json) :
    ∀ (xs ys : List Json), mapParse schema xs = .ok ys →
      ys.length = xs.length ∧ ∀ i : Nat, (xs[i]?).bind schema = ys[i]? := by
  intro xs
  induction xs with
  | nil =>
    intro ys h
    simp only [mapParse] at h
    injection h with h2
    subst h2
    exact ⟨rfl, fun i => by simp⟩
  | cons x xs ih =>
    intro ys h
    simp only [mapParse] at h
    cases hx : schema x with
    | none => rw [hx] at h; exact Except.noConfusion h
    | some y =>
      rw [hx] at h
      cases hrec : mapParse schema xs with
      | error e => rw [hrec] at h; exact Except.noConfusion h
      | ok ys0 =>
        rw [hrec] at h
        injection h with h2
        subst h2
        obtain ⟨hlen, hidx⟩ := ih ys0 hrec
        refine ⟨by simp [hlen], ?_⟩
        intro i
        cases i with
        | zero => simp [hx]
        | succ n => simpa using hidx n

theorem mapParse_total (schema : Json → Option Json) :
    ∀ xs : List Json, (∀ x ∈ xs, (schema x).isSome) →
      ∃ ys, mapParse schema xs = .ok ys := by
  intro xs
  induction xs with
  | nil => intro _; exact ⟨[], rfl⟩
  | cons x xs ih =>
    intro hall
    obtain ⟨y, hy⟩ := Option.isSome_iff_exists.mp (hall x (by simp))
    obtain ⟨ys, hys⟩ := ih fun z hz => hall z (by simp [hz])
    exact ⟨y :: ys, by simp only [mapParse, hy, hys]⟩

/-- C5: a raw array response yields exactly its elements validated in
order (the i-th output is the validation of the i-th input, and a fully
valid array always succeeds); an object with an array-valued items key
behaves exactly as the raw array would; every other top-level shape
(null, boolean, number, string, or an object without an array-valued
items key) raises the malformed-list NotteAPIError with the sentinel
status 0 and a message describing the expected shapes. -/
theorem requestList_shape (schema : Json → Option Json) (path : String) :
    (∀ xs ys, requestList schema path (.arr xs) = .ok ys →
        ys.length = xs.length ∧ ∀ i : Nat, (xs[i]?).bind schema = ys[i]?)
  ∧ (∀ xs, (∀ x ∈ xs, (schema x).isSome) →
        ∃ ys, requestList schema path (.arr xs) = .ok ys)
  ∧ (∀ kvs xs, kvs.lookup ("items") = some (.arr xs) →
        requestList schema path (.obj kvs) = requestList schema path (.arr xs))
  ∧ (requestList schema path .null
        = .error (.api ⟨0, .str ("Expected array or \x7b items: [...] \x7d response"), path⟩))
  ∧ (∀ bl, requestList schema path (.bool bl)
        = .error (.api ⟨0, .str ("Expected array or \x7b items: [...] \x7d response"), path⟩))
  ∧ (∀ q, requestList schema path (.num q)
        = .error (.api ⟨0, .str ("Expected array or \x7b items: [...] \x7d response"), path⟩))
  ∧ (∀ s0, requestList schema path (.str s0)
        = .error (.api ⟨0, .str ("Expected array or \x7b items: [...] \x7d response"), path⟩))
  ∧ (∀ kvs, (∀ xs, kvs.lookup ("items") ≠ some (.arr xs)) →
        requestList schema path (.obj kvs)
          = .error (.api ⟨0, .str ("Expected array or \x7b items: [...] \x7d response"), path⟩)) := by
  refine ⟨?_, ?_, ?_, rfl, fun bl => rfl, fun q => rfl, fun s0 => rfl, ?_⟩
  · intro xs ys h
    exact mapParse_ok_spec schema xs ys (by simpa [requestList, getListItems] using h)
  · intro xs hall
    obtain ⟨ys, hys⟩ := mapParse_total schema xs hall
    exact ⟨ys, by simpa [requestList, getListItems] using hys⟩
  · intro kvs xs h
    simp [requestList, getListItems, h]
  · intro kvs h
    rw [requestList]
    cases hlk : kvs.lookup ("items") with
    | none => simp [getListItems, hlk]
    | some v =>
      cases v with
      | null => simp [getListItems, hlk]
      | bool b0 => simp [getListItems, hlk]
      | num q0 => simp [getListItems, hlk]
      | str s0 => simp [getListItems, hlk]
      | arr xs => exact absurd hlk (h xs)
      | obj o0 => simp [getListItems, hlk]

/-- Witness for C5: the items-unwrapping case at concrete inputs. -/
theorem requestList_shape_witness :
    requestList some ("/sessions") (.obj [("items", .arr [.null])])
      = requestList some ("/sessions") (.arr [.null]) :=
  (requestList_shape some ("/sessions")).2.2.1 [("items", .arr [.null])] [.null] (by rfl)

/-! ### C6: strict versus passthrough unknown-key policy -/

theorem lookup_append_single_ne (kvs : List (String × Json)) (f e : String) (v : Json)
    (hne : f ≠ e) : (kvs ++ [(e, v)]).lookup f = kvs.lookup f := by
  induction kvs with
  | nil =>
    simp only [List.nil_append, List.lookup_cons, List.lookup_nil]
    have : (f == e) = false := beq_eq_false_iff_ne.mpr hne
    rw [this]
  | cons kv kvs ih =>
    obtain ⟨k1, v1⟩ := kv
    rw [List.cons_append, List.lookup_cons, List.lookup_cons]
    cases hfk : f == k1
    · simpa using ih
    · rfl

theorem lookup_append_single_self (kvs : List (String × Json)) (e : String) (v : Json)
    (h : kvs.lookup e = none) : (kvs ++ [(e, v)]).lookup e = some v := by
  induction kvs with
  | nil => simp [List.lookup_cons]
  | cons kv kvs ih =>
    obtain ⟨k1, v1⟩ := kv
    rw [List.lookup_cons] at h
    rw [List.cons_append, List.lookup_cons]
    cases hfk : e == k1
    · rw [hfk] at h
      simpa using ih h
    · rw [hfk] at h
      exact Option.noConfusion h

theorem checkFields_append_unknown :
    ∀ (fields : List Field) (kvs : List (String × Json)) (e : String) (v : Json),
      (∀ f ∈ fields, f.name ≠ e) →
      checkFields fields (kvs ++ [(e, v)]) = checkFields fields kvs := by
  intro fields kvs e v
  induction fields with
  | nil => intro _; rfl
  | cons f fs ih =>
    intro hnot
    simp only [checkFields, List.all_cons] at ih ⊢
    rw [lookup_append_single_ne kvs f.name e v (hnot f (by simp)),
        ih fun g hg => hnot g (by simp [hg])]

theorem strict_rejects_unknown_key (fields : List Field) (kvs : List (String × Json))
    (k : String) (v : Json) (hk : (k, v) ∈ kvs)
    (hnot : ∀ f ∈ fields, f.name ≠ k) :
    parseObject .strict fields (.obj kvs) = none := by
  have hdecl : allKeysDeclared fields kvs = false := by
    rw [allKeysDeclared, List.all_eq_false]
    refine ⟨(k, v), hk, fun hcon => ?_⟩
    obtain ⟨f, hf, hbeq⟩ := List.any_eq_true.mp hcon
    exact hnot f hf (by simpa using hbeq)
  simp [parseObject, hdecl]

/-- C6 counterexample: the claim asserts that parsing any response
object containing keys beyond the declared field set succeeds; but an
object consisting solely of an unknown key fails the passthrough parse
because the required declared fields are missing. -/
theorem schema_policy_counterexample :
    SessionResponseSchema (.obj [("unknown_key", .num 1)]) = none := rfl

/-- C6 (amended): the strict session-start request schema rejects every
object containing any key outside its declared field set; the
passthrough session response schema, on every object whose declared
fields validate, succeeds even in the presence of an extra unknown key,
and the parsed result carries every input key, the unknown one
included, with its value unmodified. -/
theorem schema_policies :
    (∀ (kvs : List (String × Json)) (k : String) (v : Json),
        (k, v) ∈ kvs →
        (∀ f ∈ sessionStartRequestFields, f.name ≠ k) →
        SessionStartRequestSchema (.obj kvs) = none)
  ∧ (∀ kvs : List (String × Json), checkFields sessionResponseFields kvs = true →
        SessionResponseSchema (.obj kvs) = some (.obj kvs))
  ∧ (∀ (kvs : List (String × Json)) (out : Json),
        SessionResponseSchema (.obj kvs) = some out → out = .obj kvs)
  ∧ (∀ (kvs : List (String × Json)) (e : String) (v : Json),
        checkFields sessionResponseFields kvs = true →
        (∀ f ∈ sessionResponseFields, f.name ≠ e) →
        kvs.lookup e = none →
        SessionResponseSchema (.obj (kvs ++ [(e, v)]))
            = some (.obj (kvs ++ [(e, v)]))
        ∧ (kvs ++ [(e, v)]).lookup e = some v) := by
  refine ⟨?_, ?_, ?_, ?_⟩
  · intro kvs k v hk hnot
    exact strict_rejects_unknown_key sessionStartRequestFields kvs k v hk hnot
  · intro kvs h
    simp [SessionResponseSchema, parseObject, h]
  · intro kvs out h
    simp only [SessionResponseSchema, parseObject] at h
    split at h
    · injection h with h2; exact h2.symm
    · exact Option.noConfusion h
  · intro kvs e v h hnot hnone
    refine ⟨?_, lookup_append_single_self kvs e v hnone⟩
    have hch := checkFields_append_unknown sessionResponseFields kvs e v hnot
    rw [h] at hch
    simp [SessionResponseSchema, parseObject, hch]

/-- Witness for the amended C6 theorem: the strict start schema rejects
a concrete object with an undeclared key. -/
theorem schema_policies_witness :
    SessionStartRequestSchema (.obj [("unknown_key", .num 1)]) = none :=
  (schema_policies).1 [("unknown_key", .num 1)] "unknown_key" (.num 1)
    (by simp) (by decide)

/-! ### C7: the API error raised on a non-success response -/

theorem jsToString_str (s : String) : jsToString (.str s) = s := by
  simp [jsToString]

theorem string_length_pos_of_ne (s : String) (h : s ≠ "") : 0 < s.length := by
  cases s with
  | mk data =>
    cases data with
    | nil => exact absurd rfl h
    | cons c cs => simp [String.length]

/-- C7: every non-success HTTP response raises a NotteAPIError carrying
the status code, the parsed-or-raw body and the request path; the
message core prefers the detail field of an object body, then its
message field, then the body itself when it is a non-empty string, and
otherwise falls back to a generic message naming the status code, with
the path appended in parentheses; in particular a 404 with JSON body
made of a detail field holding the text Not found yields an error whose
message starts with Not found and whose status code is 404. -/
theorem api_error_construction :
    (∀ (status : Nat) (body : HttpBody) (path : String),
        responseOk status = false →
        (rawRequest path (.response status body)).1
          = .error (.api
              ⟨status,
               (match body.json? with
                | some j => j
                | none => .str body.text),
               path⟩))
  ∧ (∀ (kvs : List (String × Json)) (st : Nat) (p : String) (v : Json),
        kvs.lookup ("detail") = some v →
        NotteAPIError.message ⟨st, .obj kvs, p⟩ = jsToString v ++ " (" ++ p ++ ")")
  ∧ (∀ (kvs : List (String × Json)) (st : Nat) (p : String) (v : Json),
        kvs.lookup ("detail") = none → kvs.lookup ("message") = some v →
        NotteAPIError.message ⟨st, .obj kvs, p⟩ = jsToString v ++ " (" ++ p ++ ")")
  ∧ (∀ (st : Nat) (p s0 : String), s0 ≠ "" →
        NotteAPIError.message ⟨st, .str s0, p⟩ = s0 ++ " (" ++ p ++ ")")
  ∧ (∀ (kvs : List (String × Json)) (st : Nat) (p : String),
        kvs.lookup ("detail") = none → kvs.lookup ("message") = none →
        NotteAPIError.message ⟨st, .obj kvs, p⟩
          = "API request failed with status " ++ toString st ++ " (" ++ p ++ ")")
  ∧ (∀ (st : Nat) (p : String),
        NotteAPIError.message ⟨st, .str (""), p⟩
          = "API request failed with status " ++ toString st ++ " (" ++ p ++ ")")
  ∧ ((rawRequest ("/sessions/abc")
        (.response 404 ⟨some (.obj [("detail", .str ("Not found"))]), "raw"⟩)).1
      = .error (.api ⟨404, .obj [("detail", .str ("Not found"))], "/sessions/abc"⟩))
  ∧ (NotteAPIError.message ⟨404, .obj [("detail", .str ("Not found"))], "/sessions/abc"⟩
      = "Not found (/sessions/abc)")
  ∧ (("Not found").data.isPrefixOf
        (NotteAPIError.message ⟨404, .obj [("detail", .str ("Not found"))], "/sessions/abc"⟩).data
      = true) := by
  refine ⟨?_, ?_, ?_, ?_, ?_, ?_, rfl, ?_, ?_⟩
  case refine_7 =>
    have h1 : NotteAPIError.message ⟨404, .obj [("detail", .str ("Not found"))], "/sessions/abc"⟩
        = jsToString (.str ("Not found")) ++ " (" ++ "/sessions/abc" ++ ")" := rfl
    rw [h1, jsToString_str]
    decide
  case refine_8 =>
    have h1 : NotteAPIError.message ⟨404, .obj [("detail", .str ("Not found"))], "/sessions/abc"⟩
        = jsToString (.str ("Not found")) ++ " (" ++ "/sessions/abc" ++ ")" := rfl
    rw [h1, jsToString_str]
    decide
  · intro status body path h
    rw [rawRequest, h]
    simp
  · intro kvs st p v h
    simp only [NotteAPIError.message, errMessageCore, h]
  · intro kvs st p v h1 h2
    simp only [NotteAPIError.message, errMessageCore, h1, h2]
  · intro st p s0 h
    have hpos : 0 < s0.length := string_length_pos_of_ne s0 h
    simp only [NotteAPIError.message, errMessageCore, if_pos hpos]
  · intro kvs st p h1 h2
    simp only [NotteAPIError.message, errMessageCore, h1, h2]
  · intro st p
    simp only [NotteAPIError.message, errMessageCore]
    rfl

/-- Witness for C7: a concrete 500 with an unparseable body carries the
raw text. -/
theorem api_error_construction_witness :
    (rawRequest ("/x") (.response 500 ⟨none, "oops"⟩)).1
      = .error (.api ⟨500, .str ("oops"), "/x"⟩) :=
  (api_error_construction).1 500 ⟨none, "oops"⟩ "/x" (by decide)

/-! ### C8: timeout error and transport propagation -/

/-- C8: a transport abort caused by the timeout timer raises a
NotteAPIError with the sentinel status 0, the request path, and a
message indicating the request timed out tagged with that path; any
other transport exception is propagated unchanged, not wrapped; and on
every exit path (success, error body, non-JSON body, timeout, transport
failure) the timeout timer ends cleared. -/
theorem timeout_and_transport :
    (∀ path : String,
        (rawRequest path .abortTimeout).1
          = .error (.api ⟨0, .str ("Request timed out"), path⟩)
        ∧ NotteAPIError.message ⟨0, .str ("Request timed out"), path⟩
          = "Request timed out (" ++ path ++ ")"
        ∧ (⟨0, .str ("Request timed out"), path⟩ : NotteAPIError).statusCode = 0)
  ∧ (∀ (path : String) (e : TransportError),
        (rawRequest path (.transportFail e)).1 = .error (.transport e))
  ∧ (∀ (path : String) (outcome : FetchOutcome),
        (rawRequest path outcome).2 = false) := by
  refine ⟨fun path => ⟨rfl, rfl, rfl⟩, fun path e => rfl, ?_⟩
  intro path outcome
  cases outcome with
  | abortTimeout => rfl
  | transportFail e => rfl
  | response status body =>
    rw [rawRequest]
    split
    · cases body.json? <;> rfl
    · rfl

/-! ### C9: the cookie-set request -/

/-- C9 counterexample: the set-cookies request schema accepts the empty
cookies array, and SessionsClient.setCookies builds and issues the
request for any cookie list, the empty one and a non-cookie element
included, with no validation before the network call. -/
theorem setCookies_counterexample :
    SetCookiesRequestSchema (.obj [("cookies", .arr [])])
        = some (.obj [("cookies", .arr [])])
    ∧ (setCookiesEndpoint ("sess-1") []).body = some (.obj [("cookies", .arr [])])
    ∧ (setCookiesEndpoint ("sess-1") [.null]).body
        = some (.obj [("cookies", .arr [.null])]) :=
  ⟨rfl, rfl, rfl⟩

/-- C9 (amended): the set-cookies request schema requires the cookies
key to be present and to hold an array whose elements all satisfy the
cookie shape, but it permits the empty array; and the setCookies
operation itself performs no schema validation at all, building the
endpoint with the verbatim body wrap for every input, so nothing is
rejected before the network call at that layer. -/
theorem setCookies_validation :
    (SetCookiesRequestSchema (.obj []) = none)
  ∧ (SetCookiesRequestSchema (.obj [("cookies", .arr [])])
        = some (.obj [("cookies", .arr [])]))
  ∧ (∀ (xs : List Json) (x : Json), x ∈ xs → CookieSchema x = none →
        SetCookiesRequestSchema (.obj [("cookies", .arr xs)]) = none)
  ∧ (∀ (sid : String) (cookies : List Json),
        (setCookiesEndpoint sid cookies).body = some (.obj [("cookies", .arr cookies)])
        ∧ (setCookiesEndpoint sid cookies).path = sid ++ "/cookies"
        ∧ (setCookiesEndpoint sid cookies).method = .POST) := by
  refine ⟨rfl, rfl, ?_, fun sid cookies => ⟨rfl, rfl, rfl⟩⟩
  intro xs x hx hnone
  have hall : (xs.all fun j => (CookieSchema j).isSome) = false :=
    List.all_eq_false.mpr ⟨x, hx, by simp [hnone]⟩
  simp [SetCookiesRequestSchema, parseObject, checkFields, setCookiesRequestFields,
    List.lookup_cons, isArrayOfJ, hall]

/-- Witness for the amended C9 theorem: a null element fails the cookie
shape, so the schema rejects the request object. -/
theorem setCookies_validation_witness :
    SetCookiesRequestSchema (.obj [("cookies", .arr [.null])]) = none :=
  (setCookies_validation).2.2.1 [.null] .null (by simp) (by rfl)

end Notte
